import Mathlib

/-
  Verification of the parseable catalog/pruner and alert subsystem.

  The definitions below embed the Rust sources shallowly:
  - src/src/enterprise/utils.rs (create_time_filter, fetch_parquet_file_paths)
  - src/src/alerts/mod.rs (AlertConfig validation, state updates)
  Types and functions that live outside the provided sources (the File /
  Snapshot catalog types, PartialTimeFilter, can_be_pruned, the notification
  target types) are modelled from the specification and marked as such.
-/

namespace Parseable

/-- Calendar timestamp (chrono NaiveDateTime / DateTime of Utc). Valid calendar
dates compare exactly like the lexicographic order on their fields, which is how
the order below is defined. -/
structure DateTime where
  year : Nat
  month : Nat
  day : Nat
  hour : Nat
  minute : Nat
  second : Nat
deriving DecidableEq

/-- Field tuple of a DateTime, in lexicographic order. -/
def DateTime.toTuple (d : DateTime) : Lex (Nat × Lex (Nat × Lex (Nat × Lex (Nat × Lex (Nat × Nat))))) :=
  toLex (d.year, toLex (d.month, toLex (d.day, toLex (d.hour, toLex (d.minute, d.second)))))

instance : LinearOrder DateTime :=
  LinearOrder.lift' DateTime.toTuple (by
    intro a b h
    cases a; cases b
    simp [DateTime.toTuple, toLex, Prod.ext_iff] at h
    simp_all)

/-- Time range of a query; the source struct TimeRange has fields start and end
(end exclusive). The source field end is a Lean keyword, hence endTime. -/
structure TimeRange where
  start : DateTime
  endTime : DateTime
deriving DecidableEq

/-- Modelled from the spec: an interval bound, chrono std::ops::Bound payloads
as used by PartialTimeFilter (Included / Excluded). -/
inductive TimeBound where
  | included (t : DateTime)
  | excluded (t : DateTime)
deriving DecidableEq

/-- Modelled from the spec: PartialTimeFilter (defined outside src, in the query
module) — a lower-bound (Low) or upper-bound (High) time predicate. -/
inductive PartialTimeFilter where
  | low (b : TimeBound)
  | high (b : TimeBound)
deriving DecidableEq

/-- A referenced table column (datafusion Column: optional relation + name). -/
structure Column where
  relation : Option String
  name : String
deriving DecidableEq

/-- Modelled from the spec: the predicate expressions built by create_time_filter.
A binaryExpr pairs a time bound with the column it constrains; column is a bare
column reference. -/
inductive Expr where
  | column (c : Column)
  | binaryExpr (f : PartialTimeFilter) (c : Column)
deriving DecidableEq

/-- Modelled from the spec: PartialTimeFilter::binary_expr builds the predicate
expression for a time bound over the given column expression. -/
def PartialTimeFilter.binary_expr (f : PartialTimeFilter) (e : Expr) : Expr :=
  match e with
  | .column c => .binaryExpr f c
  | e => e

/-- Modelled from the spec: the default ingestion timestamp column name
(event::DEFAULT_TIMESTAMP_KEY, defined outside src). -/
def DEFAULT_TIMESTAMP_KEY : String := "p_timestamp"

/-- Embeds create_time_filter (src/src/enterprise/utils.rs lines 18-59): builds
the start-inclusive and end-exclusive predicate expressions over the configured
time-partition column, or the default timestamp column when none is configured.
naive_utc conversion is the identity in this model. -/
def create_time_filter (time_range : TimeRange) (time_partition : Option String)
    (table_name : String) : List Expr :=
  let start_time := time_range.start
  let end_time := time_range.endTime
  match time_partition with
  | some tp =>
      [(PartialTimeFilter.low (.included start_time)).binary_expr
          (.column ⟨some table_name, tp⟩),
       (PartialTimeFilter.high (.excluded end_time)).binary_expr
          (.column ⟨some table_name, tp⟩)]
  | none =>
      [(PartialTimeFilter.low (.included start_time)).binary_expr
          (.column ⟨some table_name, DEFAULT_TIMESTAMP_KEY⟩),
       (PartialTimeFilter.high (.excluded end_time)).binary_expr
          (.column ⟨some table_name, DEFAULT_TIMESTAMP_KEY⟩)]

/-- Modelled from the spec: extract_primary_filter (defined outside src)
inspects the predicate expressions to produce the Low/High bound descriptors
consumed by manifests_for_range. -/
def extract_primary_filter (exprs : List Expr) (_time_partition : Option String) :
    List PartialTimeFilter :=
  exprs.filterMap fun e =>
    match e with
    | .binaryExpr f _ => some f
    | _ => none

/-- Modelled from the spec: a File records one physical columnar data file —
its storage path and the lower/upper bound timestamps for the partition column
(byte size, row counts and the per-column statistics are not needed here). -/
structure File where
  file_path : String
  lower_bound : DateTime
  upper_bound : DateTime
deriving DecidableEq

/-- Membership of a timestamp in the bound described by a time filter. -/
def PartialTimeFilter.containsTime (f : PartialTimeFilter) (t : DateTime) : Prop :=
  match f with
  | .low (.included s) => s ≤ t
  | .low (.excluded s) => s < t
  | .high (.included e) => t ≤ e
  | .high (.excluded e) => t < e

/-- Modelled from the spec: File::can_be_pruned (defined outside src) returns
true exactly when the file's [lower_bound, upper_bound] timestamp range has no
intersection with the predicate's time bound; a non-binary expression prunes
nothing. -/
def File.can_be_pruned (file : File) (partial_filter : Expr) : Bool :=
  match partial_filter with
  | .binaryExpr f _ =>
      match f with
      | .low (.included s) => decide (file.upper_bound < s)
      | .low (.excluded s) => decide (file.upper_bound ≤ s)
      | .high (.included e) => decide (e < file.lower_bound)
      | .high (.excluded e) => decide (e ≤ file.lower_bound)
  | _ => false

/-- A manifest reference held in a snapshot (manifest path plus its time range). -/
structure ManifestItem where
  manifest_path : String
  time_lower_bound : DateTime
  time_upper_bound : DateTime
deriving DecidableEq

/-- Modelled from the spec: a Snapshot is the per-stream list of manifest
references. -/
structure Snapshot where
  manifest_list : List ManifestItem
deriving DecidableEq

/-- A Manifest carries the list of committed files (only the file list matters
to fetch_parquet_file_paths). -/
structure Manifest where
  files : List File
deriving DecidableEq

/-- Stream metadata as persisted (ObjectStoreFormat): the configured time
partition column and the embedded snapshot (other fields are irrelevant here). -/
structure ObjectStoreFormat where
  time_partition : Option String
  snapshot : Snapshot
deriving DecidableEq

/-- Modelled from the spec: a manifest is disjoint from a filter (and excluded)
only if its upper bound is strictly before the filter's lower bound, or its
lower bound is at/after the filter's exclusive upper bound; retained otherwise. -/
def manifestMatches (filters : List PartialTimeFilter) (m : ManifestItem) : Bool :=
  filters.all fun f =>
    match f with
    | .low (.included s) => !(decide (m.time_upper_bound < s))
    | .low (.excluded s) => !(decide (m.time_upper_bound ≤ s))
    | .high (.included e) => !(decide (e < m.time_lower_bound))
    | .high (.excluded e) => !(decide (e ≤ m.time_lower_bound))

/-- Ordering of manifest references by their lower time bound. -/
def manifestLe (a b : ManifestItem) : Prop :=
  a.time_lower_bound ≤ b.time_lower_bound

instance : DecidableRel manifestLe := fun a b =>
  inferInstanceAs (Decidable (a.time_lower_bound ≤ b.time_lower_bound))

instance : IsTotal ManifestItem manifestLe :=
  ⟨fun a b => le_total a.time_lower_bound b.time_lower_bound⟩

instance : IsTrans ManifestItem manifestLe :=
  ⟨fun _ _ _ h1 h2 => le_trans h1 h2⟩

/-- Modelled from the spec: Snapshot::manifests (defined outside src) retains
every manifest reference not provably disjoint from all the filters, re-deriving
a view sorted by time_lower_bound. -/
def Snapshot.manifests (s : Snapshot) (time_filters : List PartialTimeFilter) :
    List ManifestItem :=
  (s.manifest_list.filter (manifestMatches time_filters)).insertionSort manifestLe

/-- Embeds the snapshot-merge loop of fetch_parquet_file_paths
(src/src/enterprise/utils.rs lines 79-91): every shard's manifest references are
pushed into one merged snapshot. -/
def merge_snapshot (shards : List ObjectStoreFormat) : Snapshot :=
  ⟨shards.foldl (fun acc ob => acc ++ ob.snapshot.manifest_list) []⟩

/-- Embeds the per-filter retain pass of fetch_parquet_file_paths
(src/src/enterprise/utils.rs lines 119-121): for each filter, files that can be
pruned under it are dropped. -/
def prune_files : List Expr → List File → List File
  | [], selected => selected
  | filter :: rest, selected =>
      prune_files rest (selected.filter fun file => !(file.can_be_pruned filter))

/-- Embeds the file-selection pipeline of fetch_parquet_file_paths
(src/src/enterprise/utils.rs lines 75-121): build the time filters, merge the
shard snapshots, prune manifests, fetch them (get_manifest abstracts the
metastore read), flatten the file lists, reverse, and run the retain pass. -/
def selected_files (stream : String) (time_range : TimeRange)
    (time_partition : Option String) (shards : List ObjectStoreFormat)
    (get_manifest : ManifestItem → Manifest) : List File :=
  let time_filter_expr := create_time_filter time_range time_partition stream
  let time_filters := extract_primary_filter time_filter_expr time_partition
  let merged_snapshot := merge_snapshot shards
  let manifest_files := (merged_snapshot.manifests time_filters).map get_manifest
  prune_files time_filter_expr ((manifest_files.map Manifest.files).flatten).reverse

/-- Splits a character list at every slash, keeping empty pieces, exactly like
str::split("/") / String.splitOn (re-implemented structurally so that concrete
paths evaluate inside the kernel). -/
def splitSlashChars (cs : List Char) : List (List Char) :=
  match cs with
  | [] => [[]]
  | c :: rest =>
      match splitSlashChars rest with
      | [] => if c = '/' then [[], []] else [[c]]
      | p :: ps => if c = '/' then [] :: p :: ps else (c :: p) :: ps

/-- file_path.split("/"): the slash-separated components of a path. -/
def splitSlash (s : String) : List String :=
  (splitSlashChars s.toList).map fun cs => String.mk cs

/-- Digit-string parser modelling str::parse for the unsigned numeric path
fields (digit-only forms; on any other input the source panics, here none). -/
def parseNat10 (s : String) : Option Nat :=
  if s.toList ≠ [] ∧ s.toList.all Char.isDigit then
    some (s.toList.foldl (fun n c => n * 10 + (c.toNat - 48)) 0)
  else none

/-- Byte slice s[a..b] of an (ASCII) path component; none models the panic when
the slice end exceeds the component length. -/
def strSlice (s : String) (a b : Nat) : Option String :=
  if b ≤ s.length then some (String.mk ((s.toList.drop a).take (b - a))) else none

/-- Leap-year rule of the proleptic Gregorian calendar. -/
def isLeapYear (y : Nat) : Bool :=
  (y % 4 = 0 && y % 100 != 0) || y % 400 = 0

/-- Days in a month (0 for an invalid month number). -/
def days_in_month (y m : Nat) : Nat :=
  match m with
  | 1 => 31 | 2 => if isLeapYear y then 29 else 28 | 3 => 31
  | 4 => 30 | 5 => 31 | 6 => 30 | 7 => 31 | 8 => 31
  | 9 => 30 | 10 => 31 | 11 => 30 | 12 => 31
  | _ => 0

/-- chrono Utc.with_ymd_and_hms: some only for a valid calendar datetime (the
source unwraps, panicking on none). -/
def with_ymd_and_hms (y mo d h mi s : Nat) : Option DateTime :=
  if 1 ≤ mo ∧ mo ≤ 12 ∧ 1 ≤ d ∧ d ≤ days_in_month y mo ∧ h < 24 ∧ mi < 60 ∧ s < 60 then
    some ⟨y, mo, d, h, mi, s⟩
  else none

/-- Embeds the path-date parse of fetch_parquet_file_paths
(src/src/enterprise/utils.rs lines 126-142): split the path on /, slice the
year/month/day out of component 1 (date=YYYY-MM-DD), the hour out of component 2
(hour=HH) and the minute out of component 3 (minute=MM); none models the panics
on malformed paths. -/
def parse_file_date (file_path : String) : Option DateTime := do
  let date := splitSlash file_path
  let c1 ← date[1]?
  let c2 ← date[2]?
  let c3 ← date[3]?
  let year ← (strSlice c1 5 9).bind parseNat10
  let month ← (strSlice c1 10 12).bind parseNat10
  let day ← (strSlice c1 13 15).bind parseNat10
  let hour ← (strSlice c2 5 7).bind parseNat10
  let minute ← (strSlice c3 7 9).bind parseNat10
  with_ymd_and_hms year month day hour minute 0

/-- The grouping key used by fetch_parquet_file_paths
(src/src/enterprise/utils.rs line 147): path components 1 to 3, that is the
date=YYYY-MM-DD, hour=HH and minute=MM components. -/
def path_group_key (file_path : String) : List String :=
  ((splitSlash file_path).drop 1).take 3

/-- The grouped result map: association list from grouping key to file list,
modelling the HashMap of fetch_parquet_file_paths. -/
abbrev GroupMap : Type := List (List String × List File)

/-- Lookup in the grouped result map. -/
def lookupGroup (m : GroupMap) (k : List String) : Option (List File) :=
  match m with
  | [] => none
  | (k0, fs) :: rest => if k0 = k then some fs else lookupGroup rest k

/-- parquet_files.entry(key).or_default().push(file): append the file to its
key's group, creating the group when absent. -/
def insertAppend (m : GroupMap) (k : List String) (f : File) : GroupMap :=
  match m with
  | [] => [(k, [f])]
  | (k0, fs) :: rest =>
      if k0 = k then (k0, fs ++ [f]) :: rest else (k0, fs) :: insertAppend rest k f

/-- Embeds one iteration of the grouping filter_map of fetch_parquet_file_paths
(src/src/enterprise/utils.rs lines 123-155): parse the file's path date (none
models the panic on a malformed path), drop the file when that date is strictly
before the range start, otherwise push it under its date/hour/minute key. -/
def groupStep (start : DateTime) (m : GroupMap) (file : File) : Option GroupMap :=
  match parse_file_date file.file_path with
  | none => none
  | some file_date =>
      if file_date < start then some m
      else some (insertAppend m (path_group_key file.file_path) file)

/-- Embeds fetch_parquet_file_paths (src/src/enterprise/utils.rs lines 61-157)
as a pure function: the metastore reads are abstracted into the shards list
(successfully parsed stream jsons), the stream's configured time partition, and
the get_manifest fetcher; none models a panic while grouping. -/
def fetch_parquet_file_paths (stream : String) (time_range : TimeRange)
    (time_partition : Option String) (shards : List ObjectStoreFormat)
    (get_manifest : ManifestItem → Manifest) : Option GroupMap :=
  (selected_files stream time_range time_partition shards get_manifest).foldlM
    (groupStep time_range.start) []

/-! Alert subsystem (src/src/alerts/mod.rs). -/

/-- Alert config format version. -/
inductive AlertVerison where
  | v1
deriving DecidableEq

/-- Alert severity levels. -/
inductive Severity where
  | critical
  | high
  | medium
  | low
deriving DecidableEq

/-- The only alert type. -/
inductive AlertType where
  | threshold
deriving DecidableEq

/-- Alert states; the serde default (the state a fresh config receives) is
resolved. -/
inductive AlertState where
  | triggered
  | silenced
  | resolved
deriving DecidableEq

/-- Default alert state (the #[default] variant of AlertState). -/
def AlertState.defaultState : AlertState := .resolved

/-- Comparison operators usable on aggregate results. -/
inductive AlertOperator where
  | greaterThan
  | lessThan
  | equal
  | notEqual
  | greaterThanOrEqual
  | lessThanOrEqual
  | isNull
  | isNotNull
deriving DecidableEq

/-- Operators usable inside where-condition configs. -/
inductive WhereConfigOperator where
  | equal
  | notEqual
  | lessThan
  | greaterThan
  | lessThanOrEqual
  | greaterThanOrEqual
  | isNull
  | isNotNull
  | iLike
  | contains
  | beginsWith
  | endsWith
  | doesNotContain
  | doesNotBeginWith
  | doesNotEndWith
deriving DecidableEq

/-- Aggregate functions. -/
inductive AggregateFunction where
  | avg
  | count
  | min
  | max
  | sum
deriving DecidableEq

/-- AND/OR connective for condition pairs. -/
inductive LogicalOperator where
  | and
  | or
deriving DecidableEq

/-- One where-condition (column operator value). -/
structure ConditionConfig where
  column : String
  operator : WhereConfigOperator
  value : String
deriving DecidableEq

/-- A set of where-conditions with an optional AND/OR connective. -/
structure Conditions where
  operator : Option LogicalOperator
  condition_config : List ConditionConfig
deriving DecidableEq

/-- Group-by columns. -/
structure GroupBy where
  columns : List String
deriving DecidableEq

/-- One aggregate condition of an alert. -/
structure AggregateConfig where
  aggregate_function : AggregateFunction
  conditions : Option Conditions
  group_by : Option GroupBy
  column : String
  operator : AlertOperator
  value : Int
deriving DecidableEq

/-- The aggregate condition tree: an optional AND/OR connective over the list
of aggregate conditions. -/
structure Aggregates where
  operator : Option LogicalOperator
  aggregate_config : List AggregateConfig
deriving DecidableEq

/-- Rolling-window evaluation settings: eval_start / eval_end are humantime
strings, eval_frequency is in minutes (u64). -/
structure RollingWindow where
  eval_start : String
  eval_end : String
  eval_frequency : Nat
deriving DecidableEq

/-- Evaluation configuration. -/
inductive EvalConfig where
  | rollingWindow (rw : RollingWindow)
deriving DecidableEq

/-- Modelled from the spec: std::time::Duration, held as a nanosecond count. -/
structure Duration where
  nanos : Nat
deriving DecidableEq

/-- Modelled from the spec: a notification target's retry policy,
Retry::Infinite or Retry::Finite(n) with n a usize repeat count. -/
inductive Retry where
  | infinite
  | finite (n : Nat)
deriving DecidableEq

/-- Modelled from the spec: a target's timeout settings — the fixed retry
interval and the retry policy. -/
structure Timeout where
  interval : Duration
  times : Retry
deriving DecidableEq

/-- Modelled from the spec: a notification target (target.rs is outside src);
only its timeout settings matter to validation and dispatch ordering. -/
structure Target where
  timeout : Timeout
deriving DecidableEq

/-- An alert creation request (AlertRequest). -/
structure AlertRequest where
  severity : Severity
  title : String
  stream : String
  alert_type : AlertType
  aggregates : Aggregates
  eval_config : EvalConfig
  targets : List Target
deriving DecidableEq

/-- A stored alert configuration (AlertConfig); ids (Ulid) are modelled as Nat. -/
structure AlertConfig where
  version : AlertVerison
  id : Nat
  severity : Severity
  title : String
  stream : String
  alert_type : AlertType
  aggregates : Aggregates
  eval_config : EvalConfig
  targets : List Target
  state : AlertState
deriving DecidableEq

/-- Embeds the From AlertRequest impl for AlertConfig (src/src/alerts/mod.rs
lines 481-496); Ulid::new() is abstracted into the new_id argument, and the
state field is set to the AlertState default. -/
def AlertConfig.ofRequest (val : AlertRequest) (new_id : Nat) : AlertConfig :=
  { version := .v1
    id := new_id
    severity := val.severity
    title := val.title
    stream := val.stream
    alert_type := val.alert_type
    aggregates := val.aggregates
    eval_config := val.eval_config
    targets := val.targets
    state := AlertState.defaultState }

/-- The AlertError variants reachable in the embedded code paths; Metadata
carries the static message, CustomError a built string, ObjectStorage a storage
failure. -/
inductive AlertError where
  | objectStorage (msg : String)
  | metadata (msg : String)
  | customError (msg : String)
deriving DecidableEq

/-- Embeds AlertConfig::get_eval_frequency (src/src/alerts/mod.rs lines
707-711). -/
def AlertConfig.get_eval_frequency (self : AlertConfig) : Nat :=
  match self.eval_config with
  | .rollingWindow rolling_window => rolling_window.eval_frequency

/-- Embeds the target retry-duration validation stage of AlertConfig::validate
(src/src/alerts/mod.rs lines 530-554): eval_frequency is taken from the rolling
window, and for each finite-retry target the code computes
interval * (repeat as u32) — the usize repeat count truncated to 32 bits — and
rejects with a Metadata error when that duration in seconds strictly exceeds
eval_frequency * 60. Durations are compared exactly in nanoseconds, which
matches the source's as_secs_f64 comparison for every duration below 2^53 ns. -/
def AlertConfig.validate_target_retry (self : AlertConfig) : Except AlertError Unit :=
  let eval_frequency := self.get_eval_frequency
  self.targets.forM fun target =>
    match target.timeout.times with
    | .infinite => pure ()
    | .finite repeat_count =>
        let notif_duration := target.timeout.interval.nanos * (repeat_count % 2 ^ 32)
        if notif_duration > eval_frequency * 60 * 1000000000 then
          Except.error (.metadata "evalFrequency should be greater than target repetition  interval")
        else pure ()

/-- Embeds the nested validate_condition_config helper of
AlertConfig::validate_configs (src/src/alerts/mod.rs lines 602-626): with an
AND/OR operator exactly two conditions are required, without one exactly one. -/
def validate_condition_config (config : Option Conditions) : Except AlertError Unit :=
  match config with
  | none => Except.ok ()
  | some config =>
      match config.operator with
      | some _ =>
          if config.condition_config.length ≠ 2 then
            Except.error (.customError "While using AND/OR, two conditions must be used")
          else Except.ok ()
      | none =>
          if config.condition_config.length ≠ 1 then
            Except.error (.customError "While not using AND/OR, one conditions must be used")
          else Except.ok ()

/-- Embeds AlertConfig::validate_configs (src/src/alerts/mod.rs lines 601-658).
With an AND/OR operator the code requires exactly two aggregate configs and
then reads aggregate_config[0] for BOTH agg1 and agg2 (line 640), so the second
aggregate's nested conditions are validated from index 0 twice; without an
operator exactly one aggregate config is required and its conditions validated. -/
def AlertConfig.validate_configs (self : AlertConfig) : Except AlertError Unit :=
  match self.aggregates.operator with
  | some _ =>
      match self.aggregates.aggregate_config with
      | [agg1, _agg2] => do
          validate_condition_config agg1.conditions
          validate_condition_config agg1.conditions
      | _ =>
          Except.error (.customError "While using AND/OR, two aggregateConditions must be used")
  | none =>
      match self.aggregates.aggregate_config with
      | [agg] => validate_condition_config agg.conditions
      | _ =>
          Except.error (.customError "While not using AND/OR, one aggregateConditions must be used")

/-- Association-list lookup, modelling HashMap::get for the Ulid-keyed maps. -/
def assocGet {α : Type} (m : List (Nat × α)) (id : Nat) : Option α :=
  match m with
  | [] => none
  | (k, v) :: rest => if k = id then some v else assocGet rest id

/-- Association-list overwrite/insert, modelling HashMap::insert and the
metastore put_alert write. -/
def assocPut {α : Type} (m : List (Nat × α)) (id : Nat) (v : α) : List (Nat × α) :=
  match m with
  | [] => [(id, v)]
  | (k, v0) :: rest =>
      if k = id then (k, v) :: rest else (k, v0) :: assocPut rest id v

/-- Association-list in-place update, modelling HashMap::get_mut followed by a
field write (a no-op when the key is absent). -/
def assocUpdate {α : Type} (f : α → α) (m : List (Nat × α)) (id : Nat) : List (Nat × α) :=
  match m with
  | [] => []
  | (k, v) :: rest =>
      if k = id then (k, f v) :: rest else (k, v) :: assocUpdate f rest id

/-- Externally visible actions of Alerts::update_state, in program order: the
metastore put_alert write, and one notification dispatch per target (the ok
flag records whether that dispatch succeeded; the source fires and forgets, so
no outcome flows back). -/
inductive AlertAction where
  | putAlert (id : Nat) (alert : AlertConfig)
  | notify (target : Target) (message : String) (ok : Bool)
deriving DecidableEq

/-- Embeds AlertConfig::trigger_notifications (src/src/alerts/mod.rs lines
740-748) as its action trace: one notify per configured target, in order; the
dispatch outcomes are drawn from notif_oks by target position. -/
def AlertConfig.trigger_notifications (self : AlertConfig) (message : String)
    (notif_oks : Nat → Bool) : List AlertAction :=
  self.targets.enum.map fun p => .notify p.2 message (notif_oks p.1)

/-- Embeds Alerts::get_alert_by_id (src/src/alerts/mod.rs lines 842-851) over
the in-memory alert map. -/
def Alerts.get_alert_by_id (alerts : List (Nat × AlertConfig)) (id : Nat) :
    Except AlertError AlertConfig :=
  match assocGet alerts id with
  | some alert => Except.ok alert
  | none => Except.error (.customError ("No alert found for the given ID- " ++ toString id))

/-- Embeds Alerts::update_state (src/src/alerts/mod.rs lines 859-893) as a
state transformer: given the persisted store, the in-memory alert map, the
target alert id, the new state, and the optional notification message, it
returns the new store, the new map, the ordered trace of external actions, and
the call result. put_ok models whether the metastore put_alert write succeeds;
notif_oks models each notification dispatch outcome. The source reads the
alert, sets its state, persists via put_alert, updates the in-memory entry, and
only then dispatches notifications. -/
def Alerts.update_state (store : List (Nat × AlertConfig))
    (alerts : List (Nat × AlertConfig)) (alert_id : Nat) (new_state : AlertState)
    (trigger_notif : Option String) (put_ok : Bool) (notif_oks : Nat → Bool) :
    List (Nat × AlertConfig) × List (Nat × AlertConfig) × List AlertAction ×
      Except AlertError Unit :=
  match Alerts.get_alert_by_id alerts alert_id with
  | .error e => (store, alerts, [], .error e)
  | .ok alert0 =>
      let alert := { alert0 with state := new_state }
      if put_ok then
        let store := assocPut store alert_id alert
        let alerts := assocUpdate (fun a => { a with state := new_state }) alerts alert_id
        match trigger_notif with
        | some msg =>
            (store, alerts,
             .putAlert alert_id alert :: alert.trigger_notifications msg notif_oks,
             .ok ())
        | none => (store, alerts, [.putAlert alert_id alert], .ok ())
      else (store, alerts, [], .error (.objectStorage "put_alert failed"))

/-! Concrete sample data used by the counterexamples and witnesses. -/

/-- Sample timestamp 2024-01-01 00:00:00. -/
def dtJan1 : DateTime := ⟨2024, 1, 1, 0, 0, 0⟩

/-- Sample timestamp 2024-01-02 00:00:00. -/
def dtJan2 : DateTime := ⟨2024, 1, 2, 0, 0, 0⟩

/-- Sample timestamp 2024-01-03 00:00:00. -/
def dtJan3 : DateTime := ⟨2024, 1, 3, 0, 0, 0⟩

/-- Sample query range [Jan 1, Jan 2). -/
def trSample : TimeRange := ⟨dtJan1, dtJan2⟩

/-- Sample query range [Jan 2, Jan 3). -/
def trLate : TimeRange := ⟨dtJan2, dtJan3⟩

/-- Sample file in the hour=00 path partition of Jan 1. -/
def fileA : File :=
  ⟨"teststream/date=2024-01-01/hour=00/minute=00/a.parquet",
   ⟨2024, 1, 1, 0, 10, 0⟩, ⟨2024, 1, 1, 0, 20, 0⟩⟩

/-- Sample file in the hour=01 path partition of Jan 1 (same calendar date as
fileA, different hour component). -/
def fileB : File :=
  ⟨"teststream/date=2024-01-01/hour=01/minute=00/b.parquet",
   ⟨2024, 1, 1, 1, 10, 0⟩, ⟨2024, 1, 1, 1, 20, 0⟩⟩

/-- Sample file whose path date (Jan 1) precedes trLate.start while its stats
range straddles Jan 2. -/
def fileC : File :=
  ⟨"teststream/date=2024-01-01/hour=23/minute=50/c.parquet",
   ⟨2024, 1, 1, 23, 50, 0⟩, ⟨2024, 1, 2, 0, 30, 0⟩⟩

/-- Sample manifest containing fileA and fileB. -/
def manifestAB : Manifest := ⟨[fileA, fileB]⟩

/-- Snapshot reference to manifestAB. -/
def itemAB : ManifestItem :=
  ⟨"teststream/date=2024-01-01/manifest.json", ⟨2024, 1, 1, 0, 0, 0⟩, ⟨2024, 1, 1, 2, 0, 0⟩⟩

/-- Sample shard stream json holding itemAB. -/
def shardAB : ObjectStoreFormat := ⟨none, ⟨[itemAB]⟩⟩

/-- Sample manifest containing fileC. -/
def manifestC : Manifest := ⟨[fileC]⟩

/-- Snapshot reference to manifestC. -/
def itemC : ManifestItem :=
  ⟨"teststream/date=2024-01-01/manifest.json", ⟨2024, 1, 1, 23, 50, 0⟩, ⟨2024, 1, 2, 0, 30, 0⟩⟩

/-- Sample shard stream json holding itemC. -/
def shardC : ObjectStoreFormat := ⟨none, ⟨[itemC]⟩⟩

/-- The grouped map produced by fetch_parquet_file_paths on the shardAB sample:
fileA and fileB share the calendar date but land under different
date/hour/minute keys. -/
def c7result : GroupMap :=
  [(["date=2024-01-01", "hour=01", "minute=00"], [fileB]),
   (["date=2024-01-01", "hour=00", "minute=00"], [fileA])]

/-- Sample aggregate condition. -/
def sampleAgg : AggregateConfig := ⟨.count, none, none, "col", .greaterThan, 0⟩

/-- Sample aggregate tree with a single condition and no connective. -/
def sampleAggregates : Aggregates := ⟨none, [sampleAgg]⟩

/-- Sample rolling window with eval_frequency of 5 minutes. -/
def rolling5 : RollingWindow := ⟨"1m", "now", 5⟩

/-- Target with a 2-minute retry interval repeated 5 times (10 min total). -/
def targetSpecReject : Target := ⟨⟨⟨120 * 1000000000⟩, .finite 5⟩⟩

/-- Target with a 1-minute retry interval and repeat count 2^32, whose `as u32`
truncation is 0. -/
def targetTrunc : Target := ⟨⟨⟨60 * 1000000000⟩, .finite (2 ^ 32)⟩⟩

/-- Alert whose finite-retry duration (10 min) exceeds eval_frequency (5 min). -/
def cfgSpecReject : AlertConfig :=
  ⟨.v1, 1, .medium, "t", "teststream", .threshold, sampleAggregates,
   .rollingWindow rolling5, [targetSpecReject], .resolved⟩

/-- Alert whose finite-retry duration (2^32 minutes) exceeds eval_frequency but
truncates to 0 in the code's u32 cast. -/
def cfgTrunc : AlertConfig :=
  ⟨.v1, 2, .medium, "t", "teststream", .threshold, sampleAggregates,
   .rollingWindow rolling5, [targetTrunc], .resolved⟩

/-- Sample condition config. -/
def condSingle : ConditionConfig := ⟨"c", .equal, "v"⟩

/-- A nested condition set with an AND operator but only one condition —
invalid per the nesting rule. -/
def condsBad : Conditions := ⟨some .and, [condSingle]⟩

/-- First aggregate of the C8 scenario: valid (no nested conditions). -/
def aggFst : AggregateConfig := ⟨.count, none, none, "col1", .greaterThan, 0⟩

/-- Second aggregate of the C8 scenario: carries the invalid nested condition
set condsBad. -/
def aggSnd : AggregateConfig := ⟨.count, some condsBad, none, "col2", .greaterThan, 0⟩

/-- Alert with a top-level AND over aggFst and aggSnd; its second aggregate's
nested conditions are invalid. -/
def cfgC8 : AlertConfig :=
  ⟨.v1, 3, .medium, "t", "teststream", .threshold, ⟨some .and, [aggFst, aggSnd]⟩,
   .rollingWindow rolling5, [], .resolved⟩

/-- Target used by the update_state witness. -/
def targetW : Target := ⟨⟨⟨1000000000⟩, .infinite⟩⟩

/-- Alert used by the update_state witness. -/
def cfgW : AlertConfig :=
  ⟨.v1, 1, .medium, "t", "teststream", .threshold, sampleAggregates,
   .rollingWindow rolling5, [targetW], .resolved⟩

/-! Helper lemmas. -/

/-- can_be_pruned returns true exactly when the file's bound range misses the
filter's time bound (for a file with a well-formed range). -/
theorem can_be_pruned_eq_true_iff (file : File) (f : PartialTimeFilter) (c : Column)
    (h : file.lower_bound ≤ file.upper_bound) :
    file.can_be_pruned (.binaryExpr f c) = true ↔
      ¬ ∃ t : DateTime, file.lower_bound ≤ t ∧ t ≤ file.upper_bound ∧ f.containsTime t := by
  rcases f with b | b <;> rcases b with ⟨s⟩ | ⟨s⟩ <;>
    simp only [File.can_be_pruned, PartialTimeFilter.containsTime, decide_eq_true_eq]
  · constructor
    · rintro hu ⟨t, _, h2, h3⟩
      exact absurd (le_trans h3 h2) (not_le_of_lt hu)
    · intro hne
      by_contra hnlt
      exact hne ⟨file.upper_bound, h, le_refl _, not_lt.mp hnlt⟩
  · constructor
    · rintro hu ⟨t, _, h2, h3⟩
      exact absurd (lt_of_lt_of_le (lt_of_lt_of_le h3 h2) hu) (lt_irrefl s)
    · intro hne
      by_contra hnle
      exact hne ⟨file.upper_bound, h, le_refl _, not_le.mp hnle⟩
  · constructor
    · rintro hl ⟨t, h1, _, h3⟩
      exact absurd (lt_of_lt_of_le hl (le_trans h1 h3)) (lt_irrefl s)
    · intro hne
      by_contra hnlt
      exact hne ⟨file.lower_bound, le_refl _, h, not_lt.mp hnlt⟩
  · constructor
    · rintro hl ⟨t, h1, _, h3⟩
      exact absurd (lt_of_le_of_lt (le_trans hl h1) h3) (lt_irrefl s)
    · intro hne
      by_contra hnle
      exact hne ⟨file.lower_bound, le_refl _, h, not_le.mp hnle⟩

/-- Membership in the retain pass: a file survives exactly when it was selected
and no filter can prune it. -/
theorem mem_prune_files (filters : List Expr) (files : List File) (file : File) :
    file ∈ prune_files filters files ↔
      file ∈ files ∧ ∀ flt ∈ filters, file.can_be_pruned flt = false := by
  induction filters generalizing files with
  | nil => simp [prune_files]
  | cons e es ih =>
      rw [prune_files, ih]
      simp only [List.mem_filter, Bool.not_eq_true', List.forall_mem_cons]
      tauto

/-- The snapshot-merge fold accumulates exactly the concatenation of the
shards' manifest lists. -/
theorem foldl_append_manifest_lists (shards : List ObjectStoreFormat)
    (init : List ManifestItem) :
    shards.foldl (fun acc ob => acc ++ ob.snapshot.manifest_list) init =
      init ++ (shards.map fun ob => ob.snapshot.manifest_list).flatten := by
  induction shards generalizing init with
  | nil => simp
  | cons s ss ih => simp [ih, List.append_assoc]

/-- assocPut makes the written value visible at its key. -/
theorem assocGet_assocPut_self {α : Type} (m : List (Nat × α)) (id : Nat) (v : α) :
    assocGet (assocPut m id v) id = some v := by
  induction m with
  | nil => simp [assocPut, assocGet]
  | cons p rest ih =>
      by_cases h : p.1 = id <;> simp [assocPut, assocGet, h, ih]

/-- Inserting a file at key k appends it to k's group. -/
theorem lookupGroup_insertAppend_self (m : GroupMap) (k : List String) (f : File) :
    lookupGroup (insertAppend m k f) k = some ((lookupGroup m k).getD [] ++ [f]) := by
  induction m with
  | nil => simp [insertAppend, lookupGroup]
  | cons p rest ih =>
      obtain ⟨k0, fs⟩ := p
      by_cases h : k0 = k
      · subst h; simp [insertAppend, lookupGroup]
      · simp [insertAppend, lookupGroup, h, ih]

/-- Inserting a file at key k leaves every other key's group unchanged. -/
theorem lookupGroup_insertAppend_ne (m : GroupMap) (k : List String) (f : File)
    (k' : List String) (h : k' ≠ k) :
    lookupGroup (insertAppend m k f) k' = lookupGroup m k' := by
  induction m with
  | nil =>
      have h' : ¬ k = k' := fun hk => h hk.symm
      simp [insertAppend, lookupGroup, h']
  | cons p rest ih =>
      obtain ⟨k0, fs⟩ := p
      by_cases h0 : k0 = k
      · have h' : ¬ k0 = k' := fun hk => h (hk.symm.trans h0)
        simp [insertAppend, lookupGroup, h0, h', Ne.symm h]
      · simp [insertAppend, lookupGroup, h0, ih]

/-- A successful lookup returns an entry of the map. -/
theorem lookupGroup_mem (m : GroupMap) (k : List String) (fs : List File)
    (h : lookupGroup m k = some fs) : (k, fs) ∈ m := by
  induction m with
  | nil => simp [lookupGroup] at h
  | cons p rest ih =>
      obtain ⟨k0, fs0⟩ := p
      rw [lookupGroup] at h
      by_cases hk : k0 = k
      · rw [if_pos hk] at h
        injection h with h
        subst hk; subst h
        exact List.mem_cons_self _ _
      · rw [if_neg hk] at h
        exact List.mem_cons_of_mem _ (ih h)

/-- A file found in a group after an insert was already in that group, or is
the inserted file sitting under the inserted key. -/
theorem mem_group_insertAppend (m : GroupMap) (k k' : List String) (g f : File)
    (fs : List File) (hk : lookupGroup (insertAppend m k g) k' = some fs) (hf : f ∈ fs) :
    (∃ fs0, lookupGroup m k' = some fs0 ∧ f ∈ fs0) ∨ (f = g ∧ k' = k) := by
  by_cases h : k' = k
  · rw [h, lookupGroup_insertAppend_self] at hk
    injection hk with hk
    cases hl : lookupGroup m k with
    | none =>
        rw [hl] at hk
        simp only [Option.getD_none, List.nil_append] at hk
        subst hk
        exact .inr ⟨by simpa using hf, h⟩
    | some fs0 =>
        rw [hl] at hk
        simp only [Option.getD_some] at hk
        subst hk
        rcases List.mem_append.mp hf with h0 | h0
        · exact .inl ⟨fs0, h ▸ hl, h0⟩
        · exact .inr ⟨by simpa using h0, h⟩
  · rw [lookupGroup_insertAppend_ne m k g k' h] at hk
    exact .inl ⟨fs, hk, hf⟩

/-- Case analysis of one successful grouping step: the file's path parsed, and
either its date precedes the range start and the map is unchanged, or it was
appended under its path key. -/
theorem groupStep_eq_some (start : DateTime) (m0 m1 : GroupMap) (g : File)
    (h : groupStep start m0 g = some m1) :
    ∃ d, parse_file_date g.file_path = some d ∧
      ((d < start ∧ m1 = m0) ∨
       (¬ d < start ∧ m1 = insertAppend m0 (path_group_key g.file_path) g)) := by
  cases hp : parse_file_date g.file_path with
  | none =>
      simp only [groupStep, hp] at h
      exact Option.noConfusion h
  | some d =>
      simp only [groupStep, hp] at h
      by_cases hd : d < start
      · rw [if_pos hd] at h
        exact ⟨d, rfl, .inl ⟨hd, (Option.some_injective _ h).symm⟩⟩
      · rw [if_neg hd] at h
        exact ⟨d, rfl, .inr ⟨hd, (Option.some_injective _ h).symm⟩⟩

/-- The grouping fold only grows groups: any file present in a group stays in
that key's group. -/
theorem groupFold_lookup_mono (start : DateTime) (files : List File) :
    ∀ (m0 m : GroupMap) (k : List String) (fs : List File) (f : File),
      files.foldlM (groupStep start) m0 = some m →
      lookupGroup m0 k = some fs → f ∈ fs →
      ∃ fs', lookupGroup m k = some fs' ∧ f ∈ fs' := by
  induction files with
  | nil =>
      intro m0 m k fs f hfold hl hf
      simp only [List.foldlM_nil, Option.pure_def, Option.some.injEq] at hfold
      exact ⟨fs, hfold ▸ hl, hf⟩
  | cons g gs ih =>
      intro m0 m k fs f hfold hl hf
      rw [List.foldlM_cons] at hfold
      cases hs : groupStep start m0 g with
      | none => rw [hs] at hfold; simp at hfold
      | some m1 =>
          rw [hs] at hfold
          replace hfold : gs.foldlM (groupStep start) m1 = some m := hfold
          obtain ⟨d, _, hcase⟩ := groupStep_eq_some start m0 m1 g hs
          rcases hcase with ⟨_, rfl⟩ | ⟨_, rfl⟩
          · exact ih _ m k fs f hfold hl hf
          · by_cases hkk : k = path_group_key g.file_path
            · have hnew := lookupGroup_insertAppend_self m0 (path_group_key g.file_path) g
              rw [← hkk, hl] at hnew
              simp only [Option.getD_some] at hnew
              rw [← hkk] at hfold
              exact ih _ m k (fs ++ [g]) f hfold hnew (List.mem_append_left _ hf)
            · have hnew : lookupGroup (insertAppend m0 (path_group_key g.file_path) g) k =
                  some fs := by
                rw [lookupGroup_insertAppend_ne _ _ _ _ hkk]; exact hl
              exact ih _ m k fs f hfold hnew hf

/-- A file whose path date precedes the range start is never added by the
grouping fold. -/
theorem groupFold_not_mem (start : DateTime) (f : File) (d : DateTime)
    (hd : parse_file_date f.file_path = some d) (hlt : d < start) (files : List File) :
    ∀ (m0 m : GroupMap),
      files.foldlM (groupStep start) m0 = some m →
      (∀ k fs, lookupGroup m0 k = some fs → f ∉ fs) →
      ∀ k fs, lookupGroup m k = some fs → f ∉ fs := by
  induction files with
  | nil =>
      intro m0 m hfold h0
      simp only [List.foldlM_nil, Option.pure_def, Option.some.injEq] at hfold
      exact hfold ▸ h0
  | cons g gs ih =>
      intro m0 m hfold h0
      rw [List.foldlM_cons] at hfold
      cases hs : groupStep start m0 g with
      | none => rw [hs] at hfold; simp at hfold
      | some m1 =>
          rw [hs] at hfold
          replace hfold : gs.foldlM (groupStep start) m1 = some m := hfold
          obtain ⟨dg, hpg, hcase⟩ := groupStep_eq_some start m0 m1 g hs
          rcases hcase with ⟨_, rfl⟩ | ⟨hnlt, rfl⟩
          · exact ih _ m hfold h0
          · apply ih _ m hfold
            intro k fs hlk hmem
            rcases mem_group_insertAppend m0 _ k g f fs hlk hmem with ⟨fs0, hl0, hf0⟩ | ⟨rfl, _⟩
            · exact h0 k fs0 hl0 hf0
            · rw [hd] at hpg
              injection hpg with hpg
              exact hnlt (hpg ▸ hlt)

/-- A file of the fold's input whose path date does not precede the range
start ends up in the group of its own path key. -/
theorem groupFold_mem (start : DateTime) (f : File) (d : DateTime)
    (hd : parse_file_date f.file_path = some d) (hnlt : ¬ d < start) (files : List File) :
    ∀ (m0 m : GroupMap), f ∈ files →
      files.foldlM (groupStep start) m0 = some m →
      ∃ fs, lookupGroup m (path_group_key f.file_path) = some fs ∧ f ∈ fs := by
  induction files with
  | nil => intro _ _ h; simp at h
  | cons g gs ih =>
      intro m0 m hmem hfold
      rw [List.foldlM_cons] at hfold
      cases hs : groupStep start m0 g with
      | none => rw [hs] at hfold; simp at hfold
      | some m1 =>
          rw [hs] at hfold
          replace hfold : gs.foldlM (groupStep start) m1 = some m := hfold
          rcases List.mem_cons.mp hmem with rfl | hmem'
          · obtain ⟨dg, hpg, hcase⟩ := groupStep_eq_some start m0 m1 f hs
            rw [hd] at hpg
            injection hpg with hpg
            subst hpg
            rcases hcase with ⟨hlt, _⟩ | ⟨_, rfl⟩
            · exact absurd hlt hnlt
            · exact groupFold_lookup_mono start gs _ m _ _ f hfold
                (lookupGroup_insertAppend_self m0 (path_group_key f.file_path) f)
                (List.mem_append_right _ (by simp))
          · exact ih m1 m hmem' hfold

/-- Every file the grouping fold places in the map sits under its own path
key (the date/hour/minute component list of its storage path). -/
theorem groupFold_key_inv (start : DateTime) (files : List File) :
    ∀ (m0 m : GroupMap),
      files.foldlM (groupStep start) m0 = some m →
      (∀ k fs, lookupGroup m0 k = some fs → ∀ f ∈ fs, path_group_key f.file_path = k) →
      ∀ k fs, lookupGroup m k = some fs → ∀ f ∈ fs, path_group_key f.file_path = k := by
  induction files with
  | nil =>
      intro m0 m hfold h0
      simp only [List.foldlM_nil, Option.pure_def, Option.some.injEq] at hfold
      exact hfold ▸ h0
  | cons g gs ih =>
      intro m0 m hfold h0
      rw [List.foldlM_cons] at hfold
      cases hs : groupStep start m0 g with
      | none => rw [hs] at hfold; simp at hfold
      | some m1 =>
          rw [hs] at hfold
          replace hfold : gs.foldlM (groupStep start) m1 = some m := hfold
          obtain ⟨dg, _, hcase⟩ := groupStep_eq_some start m0 m1 g hs
          rcases hcase with ⟨_, rfl⟩ | ⟨_, rfl⟩
          · exact ih _ m hfold h0
          · apply ih _ m hfold
            intro k fs hlk f hf
            rcases mem_group_insertAppend m0 _ k g f fs hlk hf with ⟨fs0, hl0, hf0⟩ | ⟨rfl, rfl⟩
            · exact h0 k fs0 hl0 f hf0
            · rfl

/-! Claim theorems. -/

/-- C1: For every File and filter, can_be_pruned returns true exactly when the
file's [lower, upper] timestamp range has no intersection with the filter's
time bound (a straddling file is never pruned), and consequently the per-filter
retain pass of fetch_parquet_file_paths keeps exactly the selected files whose
bounds intersect both time filters of the query range. -/
theorem can_be_pruned_correct (file : File) (f : PartialTimeFilter) (c : Column)
    (tr : TimeRange) (tp : Option String) (tn : String) (files : List File)
    (h : file.lower_bound ≤ file.upper_bound) :
    (file.can_be_pruned (.binaryExpr f c) = true ↔
      ¬ ∃ t : DateTime, file.lower_bound ≤ t ∧ t ≤ file.upper_bound ∧ f.containsTime t) ∧
    (file ∈ prune_files (create_time_filter tr tp tn) files ↔
      file ∈ files ∧
        (∃ t : DateTime, file.lower_bound ≤ t ∧ t ≤ file.upper_bound ∧ tr.start ≤ t) ∧
        (∃ t : DateTime, file.lower_bound ≤ t ∧ t ≤ file.upper_bound ∧ t < tr.endTime)) := by
  refine ⟨can_be_pruned_eq_true_iff file f c h, ?_⟩
  obtain ⟨col, hc⟩ : ∃ col, create_time_filter tr tp tn =
      [Expr.binaryExpr (.low (.included tr.start)) col,
       Expr.binaryExpr (.high (.excluded tr.endTime)) col] := by
    cases tp
    · exact ⟨_, rfl⟩
    · exact ⟨_, rfl⟩
  have e1iff : (file.can_be_pruned (Expr.binaryExpr (.low (.included tr.start)) col) = false) ↔
      ∃ t : DateTime, file.lower_bound ≤ t ∧ t ≤ file.upper_bound ∧ tr.start ≤ t := by
    rw [Bool.eq_false_iff, Ne, can_be_pruned_eq_true_iff file _ col h, not_not]
    simp [PartialTimeFilter.containsTime]
  have e2iff : (file.can_be_pruned (Expr.binaryExpr (.high (.excluded tr.endTime)) col) = false) ↔
      ∃ t : DateTime, file.lower_bound ≤ t ∧ t ≤ file.upper_bound ∧ t < tr.endTime := by
    rw [Bool.eq_false_iff, Ne, can_be_pruned_eq_true_iff file _ col h, not_not]
    simp [PartialTimeFilter.containsTime]
  rw [hc, mem_prune_files]
  simp only [List.forall_mem_cons, List.forall_mem_ne, List.not_mem_nil, false_implies,
    implies_true, and_true]
  rw [e1iff, e2iff]

/-- Witness for can_be_pruned_correct at concrete inputs. -/
theorem can_be_pruned_correct_witness :
    fileA.lower_bound ≤ fileA.upper_bound ∧
    ((fileA.can_be_pruned
        (.binaryExpr (.low (.included trSample.start)) ⟨some "teststream", DEFAULT_TIMESTAMP_KEY⟩) = true ↔
      ¬ ∃ t : DateTime, fileA.lower_bound ≤ t ∧ t ≤ fileA.upper_bound ∧
        (PartialTimeFilter.low (.included trSample.start)).containsTime t) ∧
     (fileA ∈ prune_files (create_time_filter trSample none "teststream") [fileA] ↔
      fileA ∈ [fileA] ∧
        (∃ t : DateTime, fileA.lower_bound ≤ t ∧ t ≤ fileA.upper_bound ∧ trSample.start ≤ t) ∧
        (∃ t : DateTime, fileA.lower_bound ≤ t ∧ t ≤ fileA.upper_bound ∧ t < trSample.endTime))) :=
  ⟨by decide,
   can_be_pruned_correct fileA (.low (.included trSample.start))
     ⟨some "teststream", DEFAULT_TIMESTAMP_KEY⟩ trSample none "teststream" [fileA] (by decide)⟩

/-- C2: the merged snapshot's manifest-reference list is the concatenation
(union) of the shards' manifest-reference lists, and the pruned view over it is
sorted by time_lower_bound — a sorted permutation of the merged references that
match the time filters. -/
theorem merge_snapshot_union_and_sorted (shards : List ObjectStoreFormat)
    (filters : List PartialTimeFilter) :
    (merge_snapshot shards).manifest_list =
      (shards.map fun ob => ob.snapshot.manifest_list).flatten ∧
    List.Sorted manifestLe ((merge_snapshot shards).manifests filters) ∧
    ((merge_snapshot shards).manifests filters).Perm
      ((merge_snapshot shards).manifest_list.filter (manifestMatches filters)) := by
  refine ⟨?_, ?_, ?_⟩
  · simpa [merge_snapshot] using foldl_append_manifest_lists shards []
  · show List.Sorted manifestLe (List.insertionSort manifestLe _)
    exact List.sorted_insertionSort manifestLe _
  · show (List.insertionSort manifestLe _).Perm _
    exact List.perm_insertionSort manifestLe _

/-- C5: create_time_filter returns exactly two predicate expressions — a
start-inclusive lower bound and an end-exclusive upper bound — over the
configured time-partition column when one is given and over the default
ingestion timestamp column otherwise. -/
theorem create_time_filter_two_bounds (tr : TimeRange) (tp : Option String) (tn : String) :
    create_time_filter tr tp tn =
      [Expr.binaryExpr (.low (.included tr.start)) ⟨some tn, tp.getD DEFAULT_TIMESTAMP_KEY⟩,
       Expr.binaryExpr (.high (.excluded tr.endTime)) ⟨some tn, tp.getD DEFAULT_TIMESTAMP_KEY⟩] := by
  cases tp <;> rfl

/-- C6: in fetch_parquet_file_paths, every selected file whose timestamp parsed
from its storage path is strictly before time_range.start is excluded from the
returned map, and every other selected file is included in the returned map
(under its path-derived key). -/
theorem fetch_excludes_files_before_start (stream : String) (tr : TimeRange)
    (tp : Option String) (shards : List ObjectStoreFormat)
    (gm : ManifestItem → Manifest) (result : GroupMap) (file : File) (d : DateTime)
    (hres : fetch_parquet_file_paths stream tr tp shards gm = some result)
    (hsel : file ∈ selected_files stream tr tp shards gm)
    (hparse : parse_file_date file.file_path = some d) :
    (d < tr.start → ∀ k fs, lookupGroup result k = some fs → file ∉ fs) ∧
    (¬ d < tr.start →
      ∃ fs, lookupGroup result (path_group_key file.file_path) = some fs ∧ file ∈ fs) := by
  unfold fetch_parquet_file_paths at hres
  constructor
  · intro hlt
    exact groupFold_not_mem tr.start file d hparse hlt _ [] result hres
      (by intro k fs h; simp [lookupGroup] at h)
  · intro hnlt
    exact groupFold_mem tr.start file d hparse hnlt _ [] result hsel hres

/-- Witness for fetch_excludes_files_before_start: fileC straddles trLate.start
in its stats but its path date (Jan 1) is strictly before it, so the returned
map is empty. -/
theorem fetch_excludes_files_before_start_witness :
    fetch_parquet_file_paths "teststream" trLate none [shardC] (fun _ => manifestC) =
      some [] ∧
    fileC ∈ selected_files "teststream" trLate none [shardC] (fun _ => manifestC) ∧
    parse_file_date fileC.file_path = some ⟨2024, 1, 1, 23, 50, 0⟩ ∧
    (((⟨2024, 1, 1, 23, 50, 0⟩ : DateTime) < trLate.start →
        ∀ k fs, lookupGroup ([] : GroupMap) k = some fs → fileC ∉ fs) ∧
     (¬ (⟨2024, 1, 1, 23, 50, 0⟩ : DateTime) < trLate.start →
        ∃ fs, lookupGroup ([] : GroupMap) (path_group_key fileC.file_path) = some fs ∧
          fileC ∈ fs)) :=
  ⟨by decide, by decide, by decide,
   fetch_excludes_files_before_start "teststream" trLate none [shardC] (fun _ => manifestC)
     [] fileC ⟨2024, 1, 1, 23, 50, 0⟩ (by decide) (by decide) (by decide)⟩

/-- C7 counterexample: fileA and fileB both survive pruning and share the same
date=YYYY-MM-DD path component, yet no key of the returned map holds both —
the grouping key is the full date/hour/minute prefix, not the calendar date. -/
theorem fetch_group_by_date_counterexample :
    fileA ∈ selected_files "teststream" trSample none [shardAB] (fun _ => manifestAB) ∧
    fileB ∈ selected_files "teststream" trSample none [shardAB] (fun _ => manifestAB) ∧
    (splitSlash fileA.file_path)[1]? = (splitSlash fileB.file_path)[1]? ∧
    fetch_parquet_file_paths "teststream" trSample none [shardAB] (fun _ => manifestAB) =
      some c7result ∧
    ¬ ∃ k fs, lookupGroup c7result k = some fs ∧ fileA ∈ fs ∧ fileB ∈ fs := by
  refine ⟨by decide, by decide, by decide, by decide, ?_⟩
  rintro ⟨k, fs, hl, hA, hB⟩
  have hmem := lookupGroup_mem c7result k fs hl
  simp only [c7result, List.mem_cons, List.not_mem_nil, or_false, Prod.mk.injEq] at hmem
  rcases hmem with ⟨_, rfl⟩ | ⟨_, rfl⟩
  · exact absurd hA (by decide)
  · exact absurd hB (by decide)

/-- C7 amended: every file in the returned map sits under the key equal to its
own date/hour/minute path components, so two surviving files share a key if and
only if they agree on all three of the date=YYYY-MM-DD, hour=HH and minute=MM
components (not merely the calendar date). -/
theorem fetch_group_key_amended (stream : String) (tr : TimeRange) (tp : Option String)
    (shards : List ObjectStoreFormat) (gm : ManifestItem → Manifest) (result : GroupMap)
    (k1 k2 : List String) (fs1 fs2 : List File) (f1 f2 : File)
    (hres : fetch_parquet_file_paths stream tr tp shards gm = some result)
    (h1 : lookupGroup result k1 = some fs1) (hf1 : f1 ∈ fs1)
    (h2 : lookupGroup result k2 = some fs2) (hf2 : f2 ∈ fs2) :
    k1 = path_group_key f1.file_path ∧ k2 = path_group_key f2.file_path ∧
    (k1 = k2 ↔ path_group_key f1.file_path = path_group_key f2.file_path) := by
  unfold fetch_parquet_file_paths at hres
  have hinv := groupFold_key_inv tr.start _ [] result hres
    (by intro k fs h; simp [lookupGroup] at h)
  have e1 := hinv k1 fs1 h1 f1 hf1
  have e2 := hinv k2 fs2 h2 f2 hf2
  exact ⟨e1.symm, e2.symm, by rw [e1, e2]⟩

/-- Witness for fetch_group_key_amended at the shardAB sample. -/
theorem fetch_group_key_amended_witness :
    fetch_parquet_file_paths "teststream" trSample none [shardAB] (fun _ => manifestAB) =
      some c7result ∧
    lookupGroup c7result ["date=2024-01-01", "hour=01", "minute=00"] = some [fileB] ∧
    lookupGroup c7result ["date=2024-01-01", "hour=00", "minute=00"] = some [fileA] ∧
    (["date=2024-01-01", "hour=01", "minute=00"] = path_group_key fileB.file_path ∧
     ["date=2024-01-01", "hour=00", "minute=00"] = path_group_key fileA.file_path ∧
     ((["date=2024-01-01", "hour=01", "minute=00"] : List String) =
        ["date=2024-01-01", "hour=00", "minute=00"] ↔
      path_group_key fileB.file_path = path_group_key fileA.file_path)) :=
  ⟨by decide, by decide, by decide,
   fetch_group_key_amended "teststream" trSample none [shardAB] (fun _ => manifestAB)
     c7result ["date=2024-01-01", "hour=01", "minute=00"]
     ["date=2024-01-01", "hour=00", "minute=00"] [fileB] [fileA] fileB fileA
     (by decide) (by decide) (by decide) (by decide) (by decide)⟩

/-- C3: the retry-duration check of AlertConfig::validate rejects the spec's
example (2-minute interval repeated 5 times against a 5-minute eval_frequency)
with a Metadata error, but accepts cfgTrunc even though its target's
interval × n (60 s × 2^32) far exceeds eval_frequency × 60 = 300 s, because the
code truncates the repeat count with an `as u32` cast before multiplying. -/
theorem validate_target_retry_truncation :
    cfgSpecReject.validate_target_retry =
      Except.error (.metadata "evalFrequency should be greater than target repetition  interval") ∧
    cfgTrunc.validate_target_retry = Except.ok () ∧
    targetTrunc.timeout.interval.nanos * 2 ^ 32 >
      cfgTrunc.get_eval_frequency * 60 * 1000000000 :=
  ⟨rfl, rfl, by decide⟩

/-- C4: when the alert exists, Alerts.update_state with a notification message
persists the new state via put_alert as its first external action, before any
notification dispatch; every later action is a notification of the message, and
the persisted store holds the new state for every dispatch-outcome assignment
(so a failing dispatch cannot affect the persisted state). -/
theorem update_state_persists_before_notification
    (store alerts : List (Nat × AlertConfig)) (id : Nat) (new_state : AlertState)
    (msg : String) (notif_oks : Nat → Bool) (alert0 : AlertConfig)
    (h : assocGet alerts id = some alert0) :
    ∃ notifies,
      Alerts.update_state store alerts id new_state (some msg) true notif_oks =
        (assocPut store id { alert0 with state := new_state },
         assocUpdate (fun a => { a with state := new_state }) alerts id,
         AlertAction.putAlert id { alert0 with state := new_state } :: notifies,
         .ok ()) ∧
      (∀ act ∈ notifies, ∃ t ok, act = AlertAction.notify t msg ok) ∧
      assocGet (assocPut store id { alert0 with state := new_state }) id =
        some { alert0 with state := new_state } := by
  refine ⟨{ alert0 with state := new_state }.trigger_notifications msg notif_oks, ?_, ?_, ?_⟩
  · unfold Alerts.update_state Alerts.get_alert_by_id
    rw [h]
    rfl
  · intro act hact
    simp only [AlertConfig.trigger_notifications, List.mem_map] at hact
    obtain ⟨p, _, hp⟩ := hact
    exact ⟨p.2, notif_oks p.1, hp.symm⟩
  · exact assocGet_assocPut_self store id _

/-- Witness for update_state_persists_before_notification with a failing
dispatch (notif_oks constantly false). -/
theorem update_state_persists_before_notification_witness :
    assocGet [(1, cfgW)] 1 = some cfgW ∧
    ∃ notifies,
      Alerts.update_state [] [(1, cfgW)] 1 .triggered (some "threshold crossed") true
          (fun _ => false) =
        (assocPut [] 1 { cfgW with state := .triggered },
         assocUpdate (fun a => { a with state := .triggered }) [(1, cfgW)] 1,
         AlertAction.putAlert 1 { cfgW with state := .triggered } :: notifies,
         .ok ()) ∧
      (∀ act ∈ notifies, ∃ t ok, act = AlertAction.notify t "threshold crossed" ok) ∧
      assocGet (assocPut [] 1 { cfgW with state := .triggered }) 1 =
        some { cfgW with state := .triggered } :=
  ⟨rfl,
   update_state_persists_before_notification [] [(1, cfgW)] 1 .triggered
     "threshold crossed" (fun _ => false) cfgW rfl⟩

/-- C8: validate_configs accepts cfgC8 — a top-level AND over two aggregates —
even though the second aggregate's nested condition set carries an AND with
only one condition, which validate_condition_config rejects; the source reads
aggregate_config[0] for both nested checks, skipping the second aggregate. -/
theorem validate_configs_skips_second_aggregate :
    cfgC8.validate_configs = Except.ok () ∧
    cfgC8.aggregates.operator = some .and ∧
    cfgC8.aggregates.aggregate_config = [aggFst, aggSnd] ∧
    validate_condition_config aggSnd.conditions =
      Except.error (.customError "While using AND/OR, two conditions must be used") :=
  ⟨rfl, rfl, rfl, rfl⟩

/-- C9: every AlertConfig constructed from an AlertRequest has state Resolved. -/
theorem alert_from_request_state_resolved (val : AlertRequest) (new_id : Nat) :
    (AlertConfig.ofRequest val new_id).state = AlertState.resolved := rfl

/-- C10: for an alert id absent from the in-memory map, Alerts.update_state
returns the lookup error and has no effect: the store and the map are returned
unchanged and no external action (persist or notification) is taken. -/
theorem update_state_unknown_id_no_effect (store alerts : List (Nat × AlertConfig))
    (id : Nat) (new_state : AlertState) (trigger_notif : Option String)
    (put_ok : Bool) (notif_oks : Nat → Bool)
    (h : assocGet alerts id = none) :
    Alerts.update_state store alerts id new_state trigger_notif put_ok notif_oks =
      (store, alerts, [],
       .error (.customError ("No alert found for the given ID- " ++ toString id))) := by
  unfold Alerts.update_state Alerts.get_alert_by_id
  rw [h]

/-- Witness for update_state_unknown_id_no_effect on an empty alert map. -/
theorem update_state_unknown_id_no_effect_witness :
    assocGet ([] : List (Nat × AlertConfig)) 7 = none ∧
    Alerts.update_state [] [] 7 .triggered none true (fun _ => true) =
      ([], [], [],
       .error (.customError ("No alert found for the given ID- " ++ toString 7))) :=
  ⟨rfl, update_state_unknown_id_no_effect [] [] 7 .triggered none true (fun _ => true) rfl⟩

end Parseable
